import Mathlib

/-!
Shallow embedding of the ipauseads-backend event-ingestion core:
the /v1/events ingestion pipeline (src/routes/v1/events.js), the
idempotency cache (src/models/IdempotencyCache.js), the event receipt
store (src/models/EventReceipt.js), the attention-metric calculators
(src/models/A2ARMetric.js) and the billing ledger (processBilling in
src/routes/v1/events.js).

Modelling conventions:
- JS numbers used for money and ratios are modelled as exact rationals.
- Timestamps are integers (milliseconds since epoch).
- Mongo documents are Lean structures; collections are lists; unique
  indexes are modelled by making the corresponding insert fail (return
  none), which the route code surfaces as a 500 processing_failed.
- HMAC-SHA256 signature verification is abstracted to its boolean
  outcome (field sigValid of the request); usage counters recorded by
  recordUsage do not affect control flow and are omitted.
- Date truncation to the day (setHours 0) is modelled as floor division
  of the epoch-millisecond timestamp by 86400000.
-/

set_option allowUnsafeReducibility true in
attribute [semireducible] Rat.mul Rat.add Rat.sub Rat.inv

namespace IPause

/-- JS toFixed(2) / Math.round(x*100)/100 rounding used throughout the
metric calculators: round to two decimal places, halves away from the
floor (Math.round rounds half toward positive infinity, as does
Mathlib round). -/
def roundTo2 (q : ℚ) : ℚ := ((round (q * 100) : ℤ) : ℚ) / 100

/-- Result of A2ARMetric.calculateASV: the displayed (2-decimal) scan
velocity in seconds, its tier 0..5 and its label. -/
structure ASVResult where
  asvSeconds : Option ℚ
  asvTier : Nat
  asvLabel : String
deriving Repr, DecidableEq

/-- Tier chain of A2ARMetric.calculateASV on an exact delta in seconds
(the code assigns the tier from the unrounded delta): strictly greater
than 40 is Low, then Fair, Average, Strong, and any nonnegative delta
not above 5 is Exceptional; a negative delta falls through to N/A. -/
def asvTierOf (delta : ℚ) : Nat × String :=
  if 40 < delta then (1, "Low")
  else if 20 < delta then (2, "Fair")
  else if 10 < delta then (3, "Average")
  else if 5 < delta then (4, "Strong")
  else if 0 ≤ delta then (5, "Exceptional")
  else (0, "N/A")

/-- A2ARMetric.calculateASV (src/models/A2ARMetric.js): if either
timestamp is absent the result is N/A with tier 0; otherwise the delta
is (scanned - appeared) / 1000 seconds, displayed rounded to two
decimals, with the tier chain of asvTierOf. -/
def calculateASV (qrAppearedAt qrScannedAt : Option Int) : ASVResult :=
  match qrAppearedAt, qrScannedAt with
  | some appeared, some scanned =>
    let asvSeconds : ℚ := (((scanned : ℚ) - (appeared : ℚ))) / 1000
    let t := asvTierOf asvSeconds
    { asvSeconds := some (roundTo2 asvSeconds), asvTier := t.1, asvLabel := t.2 }
  | _, _ => { asvSeconds := none, asvTier := 0, asvLabel := "N/A" }

/-- A2ARMetric.getA2ARTier (src/models/A2ARMetric.js), transcribed with
every branch of the source if-chain, including the redundant gap
branches; the decimal literals 0.2, 0.4, ... of the source are the
rationals 2/10, 4/10, ... here. -/
def getA2ARTier (a2ar : ℚ) : Nat × String :=
  if a2ar < 2/10 then (1, "Low")
  else if a2ar ≤ 4/10 then (1, "Low")
  else if a2ar < 5/10 then (1, "Low")
  else if a2ar ≤ 7/10 then (2, "Fair")
  else if a2ar < 8/10 then (2, "Fair")
  else if a2ar ≤ 15/10 then (3, "Average")
  else if a2ar < 16/10 then (3, "Average")
  else if a2ar ≤ 25/10 then (4, "Strong")
  else if a2ar < 26/10 then (4, "Strong")
  else (5, "Exceptional")

/-- Result of A2ARMetric.calculateACI. -/
structure ACIResult where
  aciRaw : ℚ
  aciScaled : ℚ
  aciLevel : Nat
  aciLabel : String
deriving Repr, DecidableEq

/-- A2ARMetric.calculateACI (src/models/A2ARMetric.js): for natural-number
tiers the JS guard (falsy or === 0 on either input) is exactly the test
for a zero tier; otherwise the raw index is the mean of the tiers, the
scaled index doubles it back, and the level is read off the scaled
index. -/
def calculateACI (a2arTier asvTier : Nat) : ACIResult :=
  if a2arTier = 0 ∨ asvTier = 0 then
    { aciRaw := 0, aciScaled := 0, aciLevel := 0, aciLabel := "N/A" }
  else
    let rawACI : ℚ := ((a2arTier : ℚ) + (asvTier : ℚ)) / 2
    let scaledACI : ℚ := rawACI * 2
    let lv : Nat × String :=
      if 9 ≤ scaledACI then (5, "Exceptional")
      else if 8 ≤ scaledACI then (4, "Strong")
      else if 6 ≤ scaledACI then (3, "Average")
      else if 4 ≤ scaledACI then (2, "Fair")
      else if 2 ≤ scaledACI then (1, "Low")
      else (0, "N/A")
    { aciRaw := roundTo2 rawACI, aciScaled := roundTo2 scaledACI,
      aciLevel := lv.1, aciLabel := lv.2 }

/-- The A2AR percentage recomputed by A2ARMetric.updateMetrics:
(verifiedConversions / pauseOps) * 100 where pauseOps is
pauseOpportunities with 0 replaced by 1 (the JS or-default on the
falsy value 0). -/
def a2arPercentageOf (pauseOpportunities verifiedConversions : Nat) : ℚ :=
  let pauseOps : ℚ := if pauseOpportunities = 0 then 1 else (pauseOpportunities : ℚ)
  ((verifiedConversions : ℚ) / pauseOps) * 100

/-! ## Data model (Mongo documents as structures, collections as lists) -/

/-- EventReceipt document (src/models/EventReceipt.js), restricted to the
fields read or written by the ingestion pipeline.  Mongo object ids are
modelled as naturals drawn from an allocation counter; processedAt
(default Date.now, used only for ordering in findMatchingPause) is
modelled by the same counter, which is monotone in insertion order. -/
structure Receipt where
  id : Nat
  eventId : String
  eventType : String
  eventTimeUtc : Int
  ipauseOpportunityId : String
  publisherId : String
  contentTitle : Option String
  series : Option String
  campaignId : Option String
  qrAppearedAt : Option Int
  qrScannedAt : Option Int
  conversionResult : Option String
  asvSeconds : Option ℚ
  asvTier : Nat
  asvLabel : String
  idempotencyKey : String
  processedAt : Nat
  matchedPauseId : Option Nat
  matchedConversionId : Option Nat
  billingStatus : String
deriving Repr, DecidableEq

/-- Wallet document (src/models/Wallet.js): one balance per advertiser. -/
structure Wallet where
  id : Nat
  user : String
  balance : ℚ
deriving Repr, DecidableEq

/-- WalletTransaction document (src/models/WalletTransaction.js). -/
structure WalletTransaction where
  wallet : Nat
  type : String
  amount : ℚ
  balanceBefore : ℚ
  balanceAfter : ℚ
  referenceId : Nat
deriving Repr, DecidableEq

/-- BillingRecord document (src/models/BillingRecord.js), the fields
written by processBilling. -/
structure BillingRecord where
  user : String
  scan : Nat
  qrCodeId : String
  conversionFee : ℚ
  publisherShare : ℚ
  ipauseCut : ℚ
deriving Repr, DecidableEq

/-- QrCode document as read by processBilling: its advertiser and the
campaign billing configuration.  A configured value of 0 is falsy in JS
and triggers the same default as an absent value. -/
structure QrCode where
  id : String
  advertiser : String
  conversionFee : Option ℚ
  publisherShare : Option ℚ
deriving Repr, DecidableEq

/-- A2ARMetric document (src/models/A2ARMetric.js) with its schema
defaults; date holds the day index (timestamp truncated to the day). -/
structure Metric where
  date : Int
  advertiser : String
  publisher : String
  programTitle : String
  pauseOpportunities : Nat
  qrScans : Nat
  verifiedConversions : Nat
  a2arPercentage : ℚ
  a2arTier : Nat
  tier : String
  averageAsvSeconds : Option ℚ
  asvTier : Nat
  asvLabel : String
  aciRaw : ℚ
  aciScaled : ℚ
  aciLevel : Nat
  aciLabel : String
deriving Repr, DecidableEq

/-- PublisherApiKey document (src/models/PublisherApiKey.js), the fields
read during authentication.  The webhook secret is abstracted to its
presence (verifySignature returns false when it is absent). -/
structure Publisher where
  publisherId : String
  apiKey : String
  status : String
  hasWebhookSecret : Bool
deriving Repr, DecidableEq

/-- Response bodies of POST /v1/events, discriminated by their status
field: accepted (with receipt id, ingestion time and, for conversions,
matched pause id and ASV block), duplicate (same event_id resubmitted),
or an error body carrying its error code. -/
inductive RespBody where
  | accepted (receiptId : String) (ingestedAt : Int)
      (matchedPauseId : Option String) (asv : Option ASVResult)
  | duplicate (receiptId : String) (message : String)
  | err (code : String)
deriving Repr, DecidableEq

/-- True exactly for bodies whose status field is accepted. -/
def RespBody.isAccepted : RespBody → Bool
  | .accepted _ _ _ _ => true
  | _ => false

/-- True exactly for bodies whose status field is duplicate. -/
def RespBody.isDuplicate : RespBody → Bool
  | .duplicate _ _ => true
  | _ => false

/-- An HTTP response: status code and JSON body. -/
abbrev Resp := Nat × RespBody

/-- IdempotencyCache document (src/models/IdempotencyCache.js). -/
structure IdemEntry where
  idempotencyKey : String
  receiptId : String
  responsePayload : RespBody
  expiresAt : Int
deriving Repr, DecidableEq

/-- The persistent store touched by the ingestion pipeline.  nextId is
the object-id allocation counter. -/
structure St where
  publishers : List Publisher
  receipts : List Receipt
  idemCache : List IdemEntry
  wallets : List Wallet
  walletTxs : List WalletTransaction
  billingRecords : List BillingRecord
  qrCodes : List QrCode
  metrics : List Metric
  nextId : Nat
deriving Repr, DecidableEq

/-! ## Store operations -/

/-- Receipt id string rct_ plus the object id, as built by the route. -/
def rct (n : Nat) : String := "rct_" ++ toString n

/-- EventReceipt.findOne on eventId. -/
def findReceiptByEventId (rs : List Receipt) (e : String) : Option Receipt :=
  rs.find? (fun r => r.eventId == e)

/-- EventReceipt.findMatchingPause (src/models/EventReceipt.js): the
pause_impression receipt with the given opportunity id that has the
greatest processedAt (findOne with sort processedAt descending). -/
def findMatchingPause (rs : List Receipt) (opp : String) : Option Receipt :=
  match rs with
  | [] => none
  | r :: rest =>
    let best := findMatchingPause rest opp
    if r.ipauseOpportunityId == opp && r.eventType == "pause_impression" then
      match best with
      | none => some r
      | some b => if r.processedAt ≤ b.processedAt then some b else some r
    else best

/-- IdempotencyCache.checkDuplicate: the cached payload of an entry for
this key whose expiresAt is strictly in the future, if any. -/
def checkDuplicate (cache : List IdemEntry) (k : String) (now : Int) : Option RespBody :=
  match cache.find? (fun e => e.idempotencyKey == k && decide (now < e.expiresAt)) with
  | some e => some e.responsePayload
  | none => none

/-- IdempotencyCache.cacheResponse: create an entry expiring 24 hours
after now.  The unique index on idempotencyKey makes the create throw
when any entry (expired or not) already holds the key; that failure is
modelled as none. -/
def cacheResponse (cache : List IdemEntry) (k receiptId : String)
    (payload : RespBody) (now : Int) : Option (List IdemEntry) :=
  if cache.any (fun e => e.idempotencyKey == k) then none
  else
    let entry : IdemEntry :=
      { idempotencyKey := k, receiptId := receiptId,
        responsePayload := payload, expiresAt := now + 86400000 }
    some (cache ++ [entry])

/-- EventReceipt.create: append the receipt and advance the id counter;
the unique indexes on eventId and on idempotencyKey make the create
throw (none) when either value is already present. -/
def insertReceipt (st : St) (r : Receipt) : Option St :=
  if st.receipts.any (fun x => x.eventId == r.eventId) ||
     st.receipts.any (fun x => x.idempotencyKey == r.idempotencyKey) then none
  else some { st with receipts := st.receipts ++ [r], nextId := st.nextId + 1 }

/-- Day truncation used for the daily-rollup key: new Date(date) with
setHours(0,0,0,0), modelled as floor division of the epoch-millisecond
timestamp by one day. -/
def dayOf (t : Int) : Int := Int.fdiv t 86400000

/-- A fresh A2ARMetric row with the schema defaults of
src/models/A2ARMetric.js. -/
def freshMetric (date : Int) (advertiser publisher programTitle : String) : Metric :=
  { date := date, advertiser := advertiser, publisher := publisher,
    programTitle := programTitle, pauseOpportunities := 0, qrScans := 0,
    verifiedConversions := 0, a2arPercentage := 0, a2arTier := 0,
    tier := "Low", averageAsvSeconds := none, asvTier := 0,
    asvLabel := "N/A", aciRaw := 0, aciScaled := 0, aciLevel := 0,
    aciLabel := "N/A" }

/-- A2ARMetric.updateMetrics (src/models/A2ARMetric.js): upsert the
daily row keyed by (date, advertiser, publisher, programTitle),
increment the requested counters (returning unchanged when nothing is
to be incremented), recompute the A2AR percentage and tier, fold the
new scan velocity into the running average and re-derive the ASV tier
from that average, and recompute the ACI when both tiers are positive.
The publisher and programTitle or-defaults of the source are the
getD "Unknown" here. -/
def updateMetrics (ms : List Metric) (date : Int) (advertiser : String)
    (publisher programTitle : Option String)
    (pauseOpportunity scan conversion : Bool) (asvSeconds : Option ℚ) :
    List Metric :=
  if !pauseOpportunity && !scan && !conversion then ms
  else
    let pub := publisher.getD "Unknown"
    let prog := programTitle.getD "Unknown"
    let key : Metric → Bool := fun m =>
      m.date == date && m.advertiser == advertiser &&
      m.publisher == pub && m.programTitle == prog
    let base : Metric :=
      match ms.find? key with
      | some m => m
      | none => freshMetric date advertiser pub prog
    let m1 : Metric :=
      { base with
        pauseOpportunities := base.pauseOpportunities + (if pauseOpportunity then 1 else 0),
        qrScans := base.qrScans + (if scan then 1 else 0),
        verifiedConversions := base.verifiedConversions + (if conversion then 1 else 0) }
    let a2ar := a2arPercentageOf m1.pauseOpportunities m1.verifiedConversions
    let tr := getA2ARTier a2ar
    let m2 : Metric :=
      { m1 with a2arPercentage := roundTo2 a2ar, a2arTier := tr.1, tier := tr.2 }
    let m3 : Metric :=
      match asvSeconds with
      | none => m2
      | some s =>
        let currentAvg := m2.averageAsvSeconds.getD 0
        let currentCount : Nat :=
          if m2.verifiedConversions = 0 then 1 else m2.verifiedConversions
        let newAvg : ℚ :=
          if currentCount = 1 then s
          else ((currentAvg * ((currentCount : ℚ) - 1)) + s) / (currentCount : ℚ)
        let avgRounded := roundTo2 newAvg
        let asvRes := asvTierOf avgRounded
        { m2 with
          averageAsvSeconds := some avgRounded,
          asvTier := asvRes.1, asvLabel := asvRes.2 }
    let m4 : Metric :=
      if 0 < m3.a2arTier && 0 < m3.asvTier then
        let aci := calculateACI m3.a2arTier m3.asvTier
        { m3 with
          aciRaw := aci.aciRaw, aciScaled := aci.aciScaled,
          aciLevel := aci.aciLevel, aciLabel := aci.aciLabel }
      else m3
    if (ms.find? key).isSome then ms.map (fun m => if key m then m4 else m)
    else ms ++ [m4]

/-- The updateA2ARMetrics helper of src/routes/v1/events.js: resolve the
advertiser from the campaign id through the QrCode collection and, when
found, delegate to A2ARMetric.updateMetrics; without a resolvable
advertiser it returns with only a log line. -/
def updateA2ARMetricsFromEvents (st : St) (date : Int) (publisherId : String)
    (programTitle : Option String) (campaignId : Option String)
    (pauseOpportunity conversion : Bool) (asvSeconds : Option ℚ) : St :=
  match campaignId with
  | none => st
  | some cid =>
    match st.qrCodes.find? (fun q => q.id == cid) with
    | none => st
    | some qr =>
      let pub : Option String := if publisherId == "" then none else some publisherId
      { st with
        metrics := updateMetrics st.metrics (dayOf date) qr.advertiser
                     pub programTitle pauseOpportunity false conversion asvSeconds }

/-- The conversion fee of a campaign: qrCode.conversionFee with the JS
or-default 5.00 (absent or 0 both fall back). -/
def effectiveConversionFee (qr : QrCode) : ℚ :=
  match qr.conversionFee with
  | some f => if f = 0 then 5 else f
  | none => 5

/-- The publisher share of a campaign: qrCode.publisherShare with the JS
or-default of 60 percent of the conversion fee. -/
def effectivePublisherShare (qr : QrCode) : ℚ :=
  match qr.publisherShare with
  | some s => if s = 0 then effectiveConversionFee qr * (6 / 10) else s
  | none => effectiveConversionFee qr * (6 / 10)

/-- processBilling (src/routes/v1/events.js): resolve the campaign from
the matched pause impression; abort silently when it cannot be
resolved.  Resolve or create (at balance 0, inside the transaction) the
advertiser wallet.  When the balance is below the fee, set the PAUSE
impression receipt billingStatus to non_billable — this update is
issued without the session and survives the transaction abort, while
the in-session wallet creation is rolled back — and return.  Otherwise
commit atomically: debit the fee, append the wallet-transaction line,
create the billing record, and set the pause impression receipt
billingStatus to billed. -/
def processBilling (st : St) (pauseEvent : Receipt) (conversionId : Nat) : St :=
  match pauseEvent.campaignId with
  | none => st
  | some cid =>
    match st.qrCodes.find? (fun q => q.id == cid) with
    | none => st
    | some qrCode =>
      let conversionFee := effectiveConversionFee qrCode
      let publisherShare := effectivePublisherShare qrCode
      let ipauseCut := conversionFee - publisherShare
      let existingWallet := st.wallets.find? (fun w => w.user == qrCode.advertiser)
      let wallet : Wallet :=
        match existingWallet with
        | some w => w
        | none => { id := st.nextId, user := qrCode.advertiser, balance := 0 }
      if wallet.balance < conversionFee then
        { st with receipts := st.receipts.map (fun r =>
            if r.id == pauseEvent.id then { r with billingStatus := "non_billable" } else r) }
      else
        let balanceBefore := wallet.balance
        let balanceAfter := balanceBefore - conversionFee
        let wallets' :=
          match existingWallet with
          | some _ => st.wallets.map (fun w =>
              if w.user == qrCode.advertiser then { w with balance := balanceAfter } else w)
          | none => st.wallets ++ [{ wallet with balance := balanceAfter }]
        let txLine : WalletTransaction :=
          { wallet := wallet.id, type := "conversion_fee", amount := -conversionFee,
            balanceBefore := balanceBefore, balanceAfter := balanceAfter,
            referenceId := conversionId }
        let billing : BillingRecord :=
          { user := qrCode.advertiser, scan := conversionId, qrCodeId := qrCode.id,
            conversionFee := conversionFee, publisherShare := publisherShare,
            ipauseCut := ipauseCut }
        { st with
          wallets := wallets',
          walletTxs := st.walletTxs ++ [txLine],
          billingRecords := st.billingRecords ++ [billing],
          receipts := st.receipts.map (fun r =>
            if r.id == pauseEvent.id then { r with billingStatus := "billed" } else r),
          nextId := match existingWallet with | some _ => st.nextId | none => st.nextId + 1 }

/-! ## Request, authentication and the POST /v1/events pipeline -/

/-- The authentication material of a request: a bearer API key, signed
webhook headers (HMAC verification abstracted to its outcome sigValid,
which stands for signature == sha256 hmac of timestamp.body under the
matched publisher webhook secret), or neither. -/
inductive AuthHeaders where
  | bearer (key : String)
  | signed (timestamp : Int) (sigValid : Bool)
  | absent
deriving Repr, DecidableEq

/-- An inbound POST /v1/events request, reduced to the fields the
pipeline reads.  Presence of the JSON blocks publisher, session,
content, ad and conversion is tracked by the has* booleans; an absent or
empty nested field is an Option none (empty strings are falsy in the JS
checks). -/
structure Request where
  auth : AuthHeaders
  idempotencyKey : Option String
  eventType : Option String
  eventId : Option String
  eventTimeUtc : Option Int
  hasPublisher : Bool
  publisherId : String
  hasSession : Bool
  opportunityId : Option String
  hasContent : Bool
  contentTitle : Option String
  series : Option String
  hasAd : Bool
  campaignId : Option String
  qrAppearedAt : Option Int
  hasConversion : Bool
  conversionResult : Option String
deriving Repr, DecidableEq

/-- Outcome of the authenticatePublisher middleware. -/
inductive AuthResult where
  | ok (p : Publisher)
  | fail (resp : Resp)
deriving Repr, DecidableEq

/-- authenticatePublisher (src/routes/v1/events.js): bearer keys are
resolved against active publishers (PublisherApiKey.findByApiKey);
signed requests need publisher.publisher_id in the body, an active
publisher, a valid signature (false when no webhook secret is
configured) and a timestamp within 300 seconds of now; with neither
proof the request is rejected. -/
def authenticatePublisher (pubs : List Publisher) (req : Request) (now : Int) : AuthResult :=
  match req.auth with
  | .bearer key =>
    match pubs.find? (fun p => p.apiKey == key && p.status == "active") with
    | some p => .ok p
    | none => .fail (401, .err "invalid_credentials")
  | .signed ts sigValid =>
    if !req.hasPublisher || req.publisherId == "" then
      .fail (400, .err "missing_publisher_id")
    else
      match pubs.find? (fun p => p.publisherId == req.publisherId && p.status == "active") with
      | none => .fail (401, .err "publisher_not_found")
      | some p =>
        if !(p.hasWebhookSecret && sigValid) then
          .fail (401, .err "invalid_signature")
        else if 300 < (Int.fdiv now 1000 - ts).natAbs then
          .fail (401, .err "timestamp_expired")
        else .ok p
  | .absent => .fail (401, .err "authentication_required")

/-- handlePauseImpression (src/routes/v1/events.js): validate the
envelope, reject a duplicate event_id with the duplicate body (without
caching), create the impression receipt (qrAppearedAt falling back to
the event time), update the A2AR rollup for the pause opportunity,
cache the accepted response under the idempotency key and return it.
A failing create surfaces as 500 processing_failed. -/
def handlePauseImpression (now : Int) (req : Request) (k : String) (st : St) : Resp × St :=
  match req.eventId, req.eventTimeUtc with
  | some eid, some t =>
    if !(req.hasPublisher && req.hasSession && req.hasContent && req.hasAd) then
      ((400, .err "missing_required_fields"), st)
    else
      match req.opportunityId with
      | none => ((400, .err "missing_opportunity_id"), st)
      | some opp =>
        match findReceiptByEventId st.receipts eid with
        | some existing =>
          ((200, .duplicate (rct existing.id) "Event already processed"), st)
        | none =>
          let rid := st.nextId
          let r : Receipt :=
            { id := rid, eventId := eid, eventType := "pause_impression",
              eventTimeUtc := t, ipauseOpportunityId := opp,
              publisherId := req.publisherId, contentTitle := req.contentTitle,
              series := req.series, campaignId := req.campaignId,
              qrAppearedAt := some (req.qrAppearedAt.getD t), qrScannedAt := none,
              conversionResult := none, asvSeconds := none, asvTier := 0,
              asvLabel := "N/A", idempotencyKey := k, processedAt := rid,
              matchedPauseId := none, matchedConversionId := none,
              billingStatus := "pending" }
          match insertReceipt st r with
          | none => ((500, .err "processing_failed"), st)
          | some st1 =>
            let st2 := updateA2ARMetricsFromEvents st1 t req.publisherId
              (req.contentTitle.orElse (fun _ => req.series)) req.campaignId true false none
            let resp : RespBody := .accepted (rct rid) now none none
            match cacheResponse st2.idemCache k (rct rid) resp now with
            | none => ((500, .err "processing_failed"), st2)
            | some cache2 => ((200, resp), { st2 with idemCache := cache2 })
  | _, _ => ((400, .err "missing_required_fields"), st)

/-- handleQRConversion (src/routes/v1/events.js): validate the envelope,
reject a duplicate event_id (without caching), resolve the most recent
matching pause impression or answer 404 pause_not_found untouched,
compute the ASV from the impression qrAppearedAt and the conversion
event time, create the conversion receipt back-linked to the
impression, forward-link and update the impression, run billing when
the conversion result is success, update the A2AR rollup, cache the
accepted response and return it. -/
def handleQRConversion (now : Int) (req : Request) (k : String) (st : St) : Resp × St :=
  match req.eventId, req.eventTimeUtc with
  | some eid, some t =>
    if !(req.hasPublisher && req.hasSession && req.hasConversion) then
      ((400, .err "missing_required_fields"), st)
    else
      match req.opportunityId with
      | none => ((400, .err "missing_opportunity_id"), st)
      | some opp =>
        match findReceiptByEventId st.receipts eid with
        | some existing =>
          ((200, .duplicate (rct existing.id) "Event already processed"), st)
        | none =>
          match findMatchingPause st.receipts opp with
          | none => ((404, .err "pause_not_found"), st)
          | some pauseEvent =>
            let asvData := calculateASV pauseEvent.qrAppearedAt (some t)
            let success := req.conversionResult == some "success"
            let rid := st.nextId
            let r : Receipt :=
              { id := rid, eventId := eid, eventType := "qr_conversion",
                eventTimeUtc := t, ipauseOpportunityId := opp,
                publisherId := req.publisherId, contentTitle := none,
                series := none, campaignId := none,
                qrAppearedAt := none, qrScannedAt := some t,
                conversionResult := req.conversionResult,
                asvSeconds := asvData.asvSeconds, asvTier := asvData.asvTier,
                asvLabel := asvData.asvLabel, idempotencyKey := k,
                processedAt := rid, matchedPauseId := some pauseEvent.id,
                matchedConversionId := none,
                billingStatus := if success then "billable" else "non_billable" }
            match insertReceipt st r with
            | none => ((500, .err "processing_failed"), st)
            | some st1 =>
              let st2 : St :=
                { st1 with
                  receipts := st1.receipts.map (fun x =>
                    if x.id == pauseEvent.id then
                      { x with
                        matchedConversionId := some rid,
                        billingStatus := if success then "billable" else "non_billable",
                        qrScannedAt := some t, asvSeconds := asvData.asvSeconds,
                        asvTier := asvData.asvTier, asvLabel := asvData.asvLabel }
                    else x) }
              let st3 := if success then processBilling st2 pauseEvent rid else st2
              let st4 := updateA2ARMetricsFromEvents st3 t req.publisherId
                (pauseEvent.contentTitle.orElse (fun _ => pauseEvent.series))
                pauseEvent.campaignId false success asvData.asvSeconds
              let resp : RespBody :=
                .accepted (rct rid) now (some (rct pauseEvent.id)) (some asvData)
              match cacheResponse st4.idemCache k (rct rid) resp now with
              | none => ((500, .err "processing_failed"), st4)
              | some cache2 => ((200, resp), { st4 with idemCache := cache2 })
  | _, _ => ((400, .err "missing_required_fields"), st)

/-- POST /v1/events (src/routes/v1/events.js): authenticatePublisher,
then checkIdempotency (400 without a key; an unexpired cached entry is
answered 200 with the exact cached payload and no further processing),
then the event_type dispatch to the impression or conversion handler,
with any other event_type rejected as invalid_event_type. -/
def postEvents (now : Int) (req : Request) (st : St) : Resp × St :=
  match authenticatePublisher st.publishers req now with
  | .fail resp => (resp, st)
  | .ok _ =>
    match req.idempotencyKey with
    | none => ((400, .err "missing_idempotency_key"), st)
    | some k =>
      match checkDuplicate st.idemCache k now with
      | some payload => ((200, payload), st)
      | none =>
        match req.eventType with
        | some "pause_impression" => handlePauseImpression now req k st
        | some "qr_conversion" => handleQRConversion now req k st
        | _ => ((400, .err "invalid_event_type"), st)

/-! ## Spec-side classifier for the amended ASV claim -/

/-- Tier table of the amended C4 claim, written from its words: a
strictly negative delta is N/A, a delta in [0,5] is Exceptional, (5,10]
Strong, (10,20] Average, (20,40] Fair, above 40 Low.  Used only to be
compared against the source-derived calculateASV. -/
def asvTierAmended (delta : ℚ) : Nat × String :=
  if delta < 0 then (0, "N/A")
  else if delta ≤ 5 then (5, "Exceptional")
  else if delta ≤ 10 then (4, "Strong")
  else if delta ≤ 20 then (3, "Average")
  else if delta ≤ 40 then (2, "Fair")
  else (1, "Low")

/-! ## Concrete scenario used by witnesses and counterexamples -/

/-- An active bearer-key publisher. -/
def pubW : Publisher :=
  { publisherId := "pub1", apiKey := "key1", status := "active",
    hasWebhookSecret := false }

/-- A campaign charging a conversion fee of 5 with publisher share 3. -/
def qrW : QrCode :=
  { id := "camp1", advertiser := "adv1", conversionFee := some 5,
    publisherShare := some 3 }

/-- Initial store: one publisher, one campaign, the advertiser wallet
funded at 100. -/
def st0W : St :=
  { publishers := [pubW], receipts := [], idemCache := [],
    wallets := [{ id := 100, user := "adv1", balance := 100 }],
    walletTxs := [], billingRecords := [], qrCodes := [qrW],
    metrics := [], nextId := 0 }

/-- A valid pause_impression request under idempotency key k1. -/
def impReqW : Request :=
  { auth := .bearer "key1", idempotencyKey := some "k1",
    eventType := some "pause_impression", eventId := some "e1",
    eventTimeUtc := some 1000, hasPublisher := true, publisherId := "pub1",
    hasSession := true, opportunityId := some "opp1", hasContent := true,
    contentTitle := some "Show", series := none, hasAd := true,
    campaignId := some "camp1", qrAppearedAt := some 2000,
    hasConversion := false, conversionResult := none }

/-- A valid successful qr_conversion request for the same opportunity
token, under idempotency key k2. -/
def convReqW : Request :=
  { auth := .bearer "key1", idempotencyKey := some "k2",
    eventType := some "qr_conversion", eventId := some "e2",
    eventTimeUtc := some 5000, hasPublisher := true, publisherId := "pub1",
    hasSession := true, opportunityId := some "opp1", hasContent := false,
    contentTitle := none, series := none, hasAd := false,
    campaignId := none, qrAppearedAt := none, hasConversion := true,
    conversionResult := some "success" }

/-- Store after ingesting the impression at time 1000. -/
def st1W : St := (postEvents 1000 impReqW st0W).2

/-- Store after then ingesting the successful conversion at time 5000
(billing runs against the funded wallet). -/
def st2W : St := (postEvents 5000 convReqW st1W).2

/-- The funded-scenario wallet document. -/
def wBW : Wallet := { id := 100, user := "adv1", balance := 100 }

/-- A pause impression receipt of the funded scenario, as stored. -/
def peBW : Receipt :=
  { id := 0, eventId := "e1", eventType := "pause_impression",
    eventTimeUtc := 1000, ipauseOpportunityId := "opp1",
    publisherId := "pub1", contentTitle := some "Show", series := none,
    campaignId := some "camp1", qrAppearedAt := some 2000,
    qrScannedAt := none, conversionResult := none, asvSeconds := none,
    asvTier := 0, asvLabel := "N/A", idempotencyKey := "k1",
    processedAt := 0, matchedPauseId := none, matchedConversionId := none,
    billingStatus := "pending" }

/-- Same initial store with the advertiser wallet funded at only 2,
below the conversion fee of 5. -/
def st0LowW : St :=
  { st0W with wallets := [{ id := 100, user := "adv1", balance := 2 }] }

/-- Low-funds store after ingesting the impression. -/
def st1LowW : St := (postEvents 1000 impReqW st0LowW).2

/-- Low-funds store after then ingesting the successful conversion:
billing hits the insufficient-funds branch. -/
def stLow2W : St := (postEvents 5000 convReqW st1LowW).2

/-- A request missing the idempotency key (rejected 400 before any
cache write). -/
def badReqW : Request := { impReqW with idempotencyKey := none, eventId := some "e7" }

/-- The conversion request with an opportunity token no impression
carries. -/
def convNoMatchW : Request := { convReqW with opportunityId := some "zzz" }

/-- The low-funds scenario wallet document. -/
def wLowW : Wallet := { id := 100, user := "adv1", balance := 2 }

/-! ## Theorems -/

/-- The source ASV tier chain agrees pointwise with the amended tier
table (they differ from the claimed table only at delta = 0). -/
theorem asvTierOf_eq_amended (d : ℚ) : asvTierOf d = asvTierAmended d := by
  unfold asvTierOf asvTierAmended
  split_ifs <;> first | rfl | (exfalso; linarith)

/-- C4 (counterexample): the claim says a delta of at most 0 yields
tier 0 N/A, but calculateASV at equal timestamps (delta = 0) yields
tier 5 Exceptional. -/
theorem c4_counterexample :
    (calculateASV (some 0) (some 0)).asvTier = 5 ∧
    (calculateASV (some 0) (some 0)).asvLabel = "Exceptional" ∧
    ¬ ((calculateASV (some 0) (some 0)).asvTier = 0 ∧
       (calculateASV (some 0) (some 0)).asvLabel = "N/A") := by decide

/-- C4 (amended): the scan-velocity delta is the conversion timestamp
minus the QR-display timestamp in seconds, and the tiers are: delta < 0
gives 0 N/A; 0 ≤ delta ≤ 5 gives 5 Exceptional; 5 < delta ≤ 10 gives 4
Strong; 10 < delta ≤ 20 gives 3 Average; 20 < delta ≤ 40 gives 2 Fair;
delta > 40 gives 1 Low; in particular deltas 3, 7, 15, 30 and 50 give
tiers 5, 4, 3, 2 and 1. -/
theorem c4_asv_delta_and_tiers (appeared scanned : Int) :
    (calculateASV (some appeared) (some scanned)).asvSeconds
        = some (roundTo2 (((scanned : ℚ) - (appeared : ℚ)) / 1000)) ∧
    (calculateASV (some appeared) (some scanned)).asvTier
        = (asvTierAmended (((scanned : ℚ) - (appeared : ℚ)) / 1000)).1 ∧
    (calculateASV (some appeared) (some scanned)).asvLabel
        = (asvTierAmended (((scanned : ℚ) - (appeared : ℚ)) / 1000)).2 ∧
    (calculateASV (some 0) (some 3000)).asvTier = 5 ∧
    (calculateASV (some 0) (some 7000)).asvTier = 4 ∧
    (calculateASV (some 0) (some 15000)).asvTier = 3 ∧
    (calculateASV (some 0) (some 30000)).asvTier = 2 ∧
    (calculateASV (some 0) (some 50000)).asvTier = 1 := by
  refine ⟨rfl, ?_, ?_, by decide, by decide, by decide, by decide, by decide⟩
  · show (asvTierOf (((scanned : ℚ) - (appeared : ℚ)) / 1000)).1 = _
    rw [asvTierOf_eq_amended]
  · show (asvTierOf (((scanned : ℚ) - (appeared : ℚ)) / 1000)).2 = _
    rw [asvTierOf_eq_amended]

/-- C7: for tiers 1..5 the composite index classifies the tier sum as
claimed: 9..10 Exceptional 5, 8 Strong 4, 6..7 Average 3, 4..5 Fair 2,
2..3 Low 1; and a zero input tier yields level 0 N/A. -/
theorem c7_aci_levels (a b : Nat) (ha1 : 1 ≤ a) (ha5 : a ≤ 5)
    (hb1 : 1 ≤ b) (hb5 : b ≤ 5) :
    ((a + b = 9 ∨ a + b = 10) →
        (calculateACI a b).aciLevel = 5 ∧ (calculateACI a b).aciLabel = "Exceptional") ∧
    (a + b = 8 →
        (calculateACI a b).aciLevel = 4 ∧ (calculateACI a b).aciLabel = "Strong") ∧
    ((a + b = 6 ∨ a + b = 7) →
        (calculateACI a b).aciLevel = 3 ∧ (calculateACI a b).aciLabel = "Average") ∧
    ((a + b = 4 ∨ a + b = 5) →
        (calculateACI a b).aciLevel = 2 ∧ (calculateACI a b).aciLabel = "Fair") ∧
    ((a + b = 2 ∨ a + b = 3) →
        (calculateACI a b).aciLevel = 1 ∧ (calculateACI a b).aciLabel = "Low") ∧
    (∀ x y : Nat, (x = 0 ∨ y = 0) →
        (calculateACI x y).aciLevel = 0 ∧ (calculateACI x y).aciLabel = "N/A") := by
  have hzero : ∀ x y : Nat, (x = 0 ∨ y = 0) →
      (calculateACI x y).aciLevel = 0 ∧ (calculateACI x y).aciLabel = "N/A" := by
    intro x y hxy
    unfold calculateACI
    rw [if_pos hxy]
    exact ⟨rfl, rfl⟩
  refine ⟨?_, ?_, ?_, ?_, ?_, hzero⟩ <;>
    (interval_cases a <;> interval_cases b <;> decide)

/-- C7 (witness): tiers 4 and 4 sum to 8 and classify as Strong level 4. -/
theorem c7_witness :
    (calculateACI 4 4).aciLevel = 4 ∧ (calculateACI 4 4).aciLabel = "Strong" :=
  (c7_aci_levels 4 4 (by decide) (by decide) (by decide) (by decide)).2.1 rfl

/-- C8 (counterexample): the claim says a zero denominator is defined as
0 percent, tier 1; but with 0 pause opportunities and 3 verified
conversions the code computes 300 percent, tier 5. -/
theorem c8_counterexample :
    a2arPercentageOf 0 3 = 300 ∧
    getA2ARTier (a2arPercentageOf 0 3) = (5, "Exceptional") ∧
    ¬ (a2arPercentageOf 0 3 = 0 ∧ (getA2ARTier (a2arPercentageOf 0 3)).1 = 1) := by
  decide

set_option maxHeartbeats 2000000 in
/-- C8 (amended): the rate is conversions / opportunities * 100; a zero
denominator is guarded by substituting 1 (so it is 0 percent, tier 1,
exactly when there are also zero conversions); the tier table is as
claimed; and the two concrete examples hold. -/
theorem c8_a2ar_ratio_and_tiers :
    (∀ pauseOps convs : Nat, 0 < pauseOps →
        a2arPercentageOf pauseOps convs = ((convs : ℚ) / (pauseOps : ℚ)) * 100) ∧
    (∀ convs : Nat, a2arPercentageOf 0 convs = (convs : ℚ) * 100) ∧
    (a2arPercentageOf 0 0 = 0 ∧ getA2ARTier (a2arPercentageOf 0 0) = (1, "Low")) ∧
    (∀ q : ℚ,
      (q < 5/10 → getA2ARTier q = (1, "Low")) ∧
      (5/10 ≤ q → q < 8/10 → getA2ARTier q = (2, "Fair")) ∧
      (8/10 ≤ q → q < 16/10 → getA2ARTier q = (3, "Average")) ∧
      (16/10 ≤ q → q < 26/10 → getA2ARTier q = (4, "Strong")) ∧
      (26/10 ≤ q → getA2ARTier q = (5, "Exceptional"))) ∧
    (a2arPercentageOf 1000 3 = 3/10 ∧
      getA2ARTier (a2arPercentageOf 1000 3) = (1, "Low")) ∧
    (a2arPercentageOf 1000 20 = 2 ∧
      getA2ARTier (a2arPercentageOf 1000 20) = (4, "Strong")) := by
  refine ⟨?_, ?_, by decide, ?_, by decide, by decide⟩
  · intro pauseOps convs h
    simp only [a2arPercentageOf]
    rw [if_neg (Nat.pos_iff_ne_zero.mp h)]
  · intro convs
    simp [a2arPercentageOf]
  · intro q
    refine ⟨?_, ?_, ?_, ?_, ?_⟩ <;> intros <;>
      (unfold getA2ARTier; split_ifs <;> first | rfl | (exfalso; linarith))

/-- C8 (witness): the general ratio equation and the tier table applied
at 1000 opportunities and 3 conversions. -/
theorem c8_witness :
    a2arPercentageOf 1000 3 = ((3 : ℚ) / (1000 : ℚ)) * 100 ∧
    getA2ARTier (3/10) = (1, "Low") :=
  ⟨c8_a2ar_ratio_and_tiers.1 1000 3 (by decide),
    (c8_a2ar_ratio_and_tiers.2.2.2.1 (3/10)).1 (by decide)⟩

/-! ## Store-operation lemmas -/

/-- The metrics rollup helper rewrites only the metrics field. -/
theorem updateA2AR_metrics_only (st : St) (d : Int) (pid : String)
    (pt cid : Option String) (po cv : Bool) (asv : Option ℚ) :
    ∃ ms, updateA2ARMetricsFromEvents st d pid pt cid po cv asv =
      { st with metrics := ms } := by
  unfold updateA2ARMetricsFromEvents
  split
  · exact ⟨st.metrics, rfl⟩
  · split
    · exact ⟨st.metrics, rfl⟩
    · exact ⟨_, rfl⟩

/-- processBilling never touches the idempotency cache. -/
theorem processBilling_idemCache (st : St) (pe : Receipt) (convId : Nat) :
    (processBilling st pe convId).idemCache = st.idemCache := by
  unfold processBilling
  split
  · rfl
  · split
    · rfl
    · dsimp only
      split
      · rfl
      · rfl

/-- A successful insertReceipt only appends the receipt and advances
the id counter. -/
theorem insertReceipt_some_eq (st : St) (r : Receipt) (st1 : St)
    (h : insertReceipt st r = some st1) :
    st1 = { st with receipts := st.receipts ++ [r], nextId := st.nextId + 1 } := by
  unfold insertReceipt at h
  split at h
  · exact absurd h (by simp)
  · exact (Option.some.inj h).symm

/-- insertReceipt succeeds when both unique indexes are free. -/
theorem insertReceipt_fresh (st : St) (r : Receipt)
    (he : st.receipts.any (fun x => x.eventId == r.eventId) = false)
    (hk : st.receipts.any (fun x => x.idempotencyKey == r.idempotencyKey) = false) :
    insertReceipt st r =
      some { st with receipts := st.receipts ++ [r], nextId := st.nextId + 1 } := by
  unfold insertReceipt
  rw [he, hk]
  rfl

/-- A missing event id means the eventId uniqueness scan also fails. -/
theorem findReceipt_none_any_false (rs : List Receipt) (e : String)
    (h : findReceiptByEventId rs e = none) :
    rs.any (fun x => x.eventId == e) = false := by
  unfold findReceiptByEventId at h
  rw [List.find?_eq_none] at h
  rw [List.any_eq_false]
  intro x hx
  exact h x hx

/-- A key that misses the unexpired-entry check at some time also
misses it at any later time. -/
theorem checkDuplicate_mono (cache : List IdemEntry) (k : String) (now now2 : Int)
    (h : checkDuplicate cache k now = none) (h12 : now ≤ now2) :
    checkDuplicate cache k now2 = none := by
  unfold checkDuplicate at h ⊢
  cases hf : cache.find? (fun e => e.idempotencyKey == k && decide (now2 < e.expiresAt)) with
  | none => rfl
  | some e =>
    exfalso
    have hmem := List.mem_of_find?_eq_some hf
    have hpred := List.find?_some hf
    cases hff : cache.find? (fun e => e.idempotencyKey == k && decide (now < e.expiresAt)) with
    | some x => rw [hff] at h; exact Option.noConfusion h
    | none =>
      have hfail := List.find?_eq_none.mp hff e hmem
      simp only [Bool.and_eq_true, beq_iff_eq, decide_eq_true_eq] at hpred hfail
      exact hfail ⟨hpred.1, lt_of_le_of_lt h12 hpred.2⟩

/-- After appending a fresh entry for the key, the duplicate check
returns exactly the cached payload while the entry is unexpired. -/
theorem checkDuplicate_append_hit (cache : List IdemEntry) (k : String) (now2 : Int)
    (e : IdemEntry) (hnone : checkDuplicate cache k now2 = none)
    (hkey : e.idempotencyKey = k) (hexp : now2 < e.expiresAt) :
    checkDuplicate (cache ++ [e]) k now2 = some e.responsePayload := by
  unfold checkDuplicate at hnone ⊢
  cases hff : cache.find? (fun x => x.idempotencyKey == k && decide (now2 < x.expiresAt)) with
  | some x => rw [hff] at hnone; exact Option.noConfusion hnone
  | none =>
    rw [List.find?_append, hff]
    simp [List.find?, hkey, hexp]

/-- The metrics rollup helper leaves the idempotency cache unchanged. -/
theorem updateA2AR_idemCache (st : St) (d : Int) (pid : String)
    (pt cid : Option String) (po cv : Bool) (asv : Option ℚ) :
    (updateA2ARMetricsFromEvents st d pid pt cid po cv asv).idemCache = st.idemCache := by
  obtain ⟨ms, h⟩ := updateA2AR_metrics_only st d pid pt cid po cv asv
  rw [h]

/-- The metrics rollup helper leaves the receipts unchanged. -/
theorem updateA2AR_receipts (st : St) (d : Int) (pid : String)
    (pt cid : Option String) (po cv : Bool) (asv : Option ℚ) :
    (updateA2ARMetricsFromEvents st d pid pt cid po cv asv).receipts = st.receipts := by
  obtain ⟨ms, h⟩ := updateA2AR_metrics_only st d pid pt cid po cv asv
  rw [h]

/-- The metrics rollup helper leaves the wallets unchanged. -/
theorem updateA2AR_wallets (st : St) (d : Int) (pid : String)
    (pt cid : Option String) (po cv : Bool) (asv : Option ℚ) :
    (updateA2ARMetricsFromEvents st d pid pt cid po cv asv).wallets = st.wallets := by
  obtain ⟨ms, h⟩ := updateA2AR_metrics_only st d pid pt cid po cv asv
  rw [h]

/-- The metrics rollup helper leaves the ledger lines unchanged. -/
theorem updateA2AR_walletTxs (st : St) (d : Int) (pid : String)
    (pt cid : Option String) (po cv : Bool) (asv : Option ℚ) :
    (updateA2ARMetricsFromEvents st d pid pt cid po cv asv).walletTxs = st.walletTxs := by
  obtain ⟨ms, h⟩ := updateA2AR_metrics_only st d pid pt cid po cv asv
  rw [h]

/-- The metrics rollup helper leaves the billing records unchanged. -/
theorem updateA2AR_billingRecords (st : St) (d : Int) (pid : String)
    (pt cid : Option String) (po cv : Bool) (asv : Option ℚ) :
    (updateA2ARMetricsFromEvents st d pid pt cid po cv asv).billingRecords =
      st.billingRecords := by
  obtain ⟨ms, h⟩ := updateA2AR_metrics_only st d pid pt cid po cv asv
  rw [h]

/-- processBilling either leaves the receipts unchanged or rewrites only
the billing status of receipts with the pause impression id. -/
theorem processBilling_receipts_shape (st : St) (pe : Receipt) (convId : Nat) :
    (processBilling st pe convId).receipts = st.receipts ∨
    ∃ s, (processBilling st pe convId).receipts =
      st.receipts.map (fun r => if r.id == pe.id then { r with billingStatus := s } else r) := by
  unfold processBilling
  split
  · exact Or.inl rfl
  split
  · exact Or.inl rfl
  dsimp only
  split
  · exact Or.inr ⟨"non_billable", rfl⟩
  · exact Or.inr ⟨"billed", rfl⟩

/-- The insufficient-funds branch of processBilling: with a resolvable
campaign, an existing wallet and balance strictly below the fee, the
only change is the pause impression receipt turning non_billable. -/
theorem processBilling_insufficient (st : St) (pe : Receipt) (convId : Nat)
    (cid : String) (qr : QrCode) (w : Wallet)
    (hcid : pe.campaignId = some cid)
    (hqr : st.qrCodes.find? (fun q => q.id == cid) = some qr)
    (hw : st.wallets.find? (fun x => x.user == qr.advertiser) = some w)
    (hbal : w.balance < effectiveConversionFee qr) :
    processBilling st pe convId =
      { st with receipts := st.receipts.map (fun r =>
          if r.id == pe.id then { r with billingStatus := "non_billable" } else r) } := by
  unfold processBilling
  rw [hcid]
  dsimp only
  rw [hqr]
  dsimp only
  rw [hw]
  dsimp only
  rw [if_pos hbal]

/-- The billed branch of processBilling: with a resolvable campaign, an
existing wallet and balance at least the fee, it debits the fee,
appends one ledger line and one billing record, and marks the pause
impression receipt billed. -/
theorem processBilling_success_eq (st : St) (pe : Receipt) (convId : Nat)
    (cid : String) (qr : QrCode) (w : Wallet)
    (hcid : pe.campaignId = some cid)
    (hqr : st.qrCodes.find? (fun q => q.id == cid) = some qr)
    (hw : st.wallets.find? (fun x => x.user == qr.advertiser) = some w)
    (hbal : effectiveConversionFee qr ≤ w.balance) :
    processBilling st pe convId = { st with
      wallets := st.wallets.map (fun x => if x.user == qr.advertiser
        then { x with balance := w.balance - effectiveConversionFee qr } else x),
      walletTxs := st.walletTxs ++
        [{ wallet := w.id, type := "conversion_fee",
           amount := -(effectiveConversionFee qr), balanceBefore := w.balance,
           balanceAfter := w.balance - effectiveConversionFee qr,
           referenceId := convId }],
      billingRecords := st.billingRecords ++
        [{ user := qr.advertiser, scan := convId,
           qrCodeId := qr.id, conversionFee := effectiveConversionFee qr,
           publisherShare := effectivePublisherShare qr,
           ipauseCut := effectiveConversionFee qr - effectivePublisherShare qr }],
      receipts := st.receipts.map (fun r => if r.id == pe.id
        then { r with billingStatus := "billed" } else r) } := by
  unfold processBilling
  rw [hcid]
  dsimp only
  rw [hqr]
  dsimp only
  rw [hw]
  dsimp only
  rw [if_neg (not_lt.mpr hbal)]

/-- Cache evolution of the impression handler: either the idempotency
cache is unchanged and the body is not accepted, or the response is 200
accepted and exactly one entry for the key, holding that body and
expiring 24 hours later, was appended. -/
theorem handlePauseImpression_cache_cases (now : Int) (req : Request) (k : String)
    (st : St) (res : Resp × St)
    (hrun : handlePauseImpression now req k st = res) :
    (res.2.idemCache = st.idemCache ∧ res.1.2.isAccepted = false) ∨
    (res.1.1 = 200 ∧ res.1.2.isAccepted = true ∧
      ∃ rid, res.2.idemCache = st.idemCache ++
        [{ idempotencyKey := k, receiptId := rid, responsePayload := res.1.2,
           expiresAt := now + 86400000 }]) := by
  unfold handlePauseImpression at hrun
  repeat'
    first
    | (subst hrun; exact Or.inl ⟨rfl, rfl⟩)
    | split at hrun
    | dsimp only at hrun
  · rename insertReceipt _ _ = some _ => hins
    subst hrun
    refine Or.inl ⟨?_, rfl⟩
    dsimp only
    rw [updateA2AR_idemCache, insertReceipt_some_eq _ _ _ hins]
  · rename insertReceipt _ _ = some _ => hins
    rename cacheResponse _ _ _ _ _ = some _ => hcache
    subst hrun
    refine Or.inr ⟨rfl, rfl, ⟨rct st.nextId, ?_⟩⟩
    unfold cacheResponse at hcache
    split at hcache
    · exact Option.noConfusion hcache
    · dsimp only at hcache
      rw [← Option.some.inj hcache]
      dsimp only
      rw [updateA2AR_idemCache, insertReceipt_some_eq _ _ _ hins]

/-- Inversion for a conditional create that produced a value: the
uniqueness check must have passed and the value is the appended list. -/
theorem ite_none_some {α : Type} (c : Prop) [Decidable c] (x y : α)
    (h : (if c then none else some x) = some y) : y = x := by
  by_cases hc : c
  · rw [if_pos hc] at h
    exact Option.noConfusion h
  · rw [if_neg hc] at h
    exact (Option.some.inj h).symm

/-- The optional billing step of the conversion handler never touches
the idempotency cache. -/
theorem billing_step_idemCache (c : Prop) [Decidable c] (s : St) (pe : Receipt) (i : Nat) :
    (if c then processBilling s pe i else s).idemCache = s.idemCache := by
  split
  · rw [processBilling_idemCache]
  · rfl

/-- Cache evolution of the conversion handler: either the idempotency
cache is unchanged and the body is not accepted, or the response is 200
accepted and exactly one entry for the key, holding that body and
expiring 24 hours later, was appended. -/
theorem handleQRConversion_cache_cases (now : Int) (req : Request) (k : String)
    (st : St) (res : Resp × St)
    (hrun : handleQRConversion now req k st = res) :
    (res.2.idemCache = st.idemCache ∧ res.1.2.isAccepted = false) ∨
    (res.1.1 = 200 ∧ res.1.2.isAccepted = true ∧
      ∃ rid, res.2.idemCache = st.idemCache ++
        [{ idempotencyKey := k, receiptId := rid, responsePayload := res.1.2,
           expiresAt := now + 86400000 }]) := by
  unfold handleQRConversion at hrun
  repeat'
    first
    | (subst hrun; exact Or.inl ⟨rfl, rfl⟩)
    | split at hrun
    | dsimp only at hrun
  all_goals
    first
    | (rename insertReceipt _ _ = some _ => hins
       subst hrun
       refine Or.inl ⟨?_, rfl⟩
       dsimp only
       rw [updateA2AR_idemCache]
       try rw [processBilling_idemCache]
       try dsimp only
       try rw [insertReceipt_some_eq _ _ _ hins]
       try rw [billing_step_idemCache]
       try dsimp only
       try rfl)
    | (rename insertReceipt _ _ = some _ => hins
       rename cacheResponse _ _ _ _ _ = some _ => hcache
       subst hrun
       refine Or.inr ⟨rfl, rfl, ⟨rct st.nextId, ?_⟩⟩
       unfold cacheResponse at hcache
       dsimp only at hcache
       rw [ite_none_some _ _ _ hcache]
       try dsimp only
       rw [updateA2AR_idemCache]
       try rw [processBilling_idemCache]
       try dsimp only
       try rw [insertReceipt_some_eq _ _ _ hins]
       try rw [billing_step_idemCache]
       try dsimp only
       try rfl)

/-- Every failure of the authentication middleware carries an error
body, never an accepted one. -/
theorem authenticatePublisher_fail_not_accepted (pubs : List Publisher)
    (req : Request) (now : Int) (r : Resp)
    (h : authenticatePublisher pubs req now = .fail r) :
    r.2.isAccepted = false := by
  unfold authenticatePublisher at h
  repeat'
    first
    | (cases h; rfl)
    | exact AuthResult.noConfusion h
    | split at h

/-- Cache evolution of the endpoint: either the cache is unchanged and
the run was an error, a duplicate event id, or a cache replay; or the
run was accepted and appended exactly one entry for the request key. -/
theorem postEvents_cache_cases (now : Int) (req : Request) (st : St) (res : Resp × St)
    (hrun : postEvents now req st = res) :
    (res.2.idemCache = st.idemCache ∧
      (res.1.2.isAccepted = false ∨
        ∃ k2, req.idempotencyKey = some k2 ∧
          checkDuplicate st.idemCache k2 now = some res.1.2)) ∨
    (res.1.1 = 200 ∧ res.1.2.isAccepted = true ∧
      ∃ k2 rid, req.idempotencyKey = some k2 ∧
        res.2.idemCache = st.idemCache ++
          [{ idempotencyKey := k2, receiptId := rid, responsePayload := res.1.2,
             expiresAt := now + 86400000 }]) := by
  unfold postEvents at hrun
  repeat'
    first
    | (subst hrun; exact Or.inl ⟨rfl, Or.inl rfl⟩)
    | (rename checkDuplicate _ _ _ = some _ => hdup
       rename req.idempotencyKey = some _ => hk
       subst hrun
       exact Or.inl ⟨rfl, Or.inr ⟨_, hk, hdup⟩⟩)
    | (rename authenticatePublisher _ _ _ = AuthResult.fail _ => hauth
       subst hrun
       exact Or.inl ⟨rfl, Or.inl (authenticatePublisher_fail_not_accepted _ _ _ _ hauth)⟩)
    | split at hrun
  all_goals rename req.idempotencyKey = some _ => hk
  all_goals
    first
    | (rename handlePauseImpression _ _ _ _ = _ => hrun2
       rcases handlePauseImpression_cache_cases _ _ _ _ _ hrun2 with
        ⟨hu, hna⟩ | ⟨h200, hacc, rid, happ⟩
       · exact Or.inl ⟨hu, Or.inl hna⟩
       · exact Or.inr ⟨h200, hacc, _, rid, hk, happ⟩)
    | (rename handleQRConversion _ _ _ _ = _ => hrun2
       rcases handleQRConversion_cache_cases _ _ _ _ _ hrun2 with
        ⟨hu, hna⟩ | ⟨h200, hacc, rid, happ⟩
       · exact Or.inl ⟨hu, Or.inl hna⟩
       · exact Or.inr ⟨h200, hacc, _, rid, hk, happ⟩)

/-- An accepted run whose key was not an unexpired cache hit appended
exactly one cache entry holding the returned body under that key. -/
theorem postEvents_accepted_caches (now : Int) (req : Request) (st : St)
    (k : String) (b : RespBody) (st1 : St)
    (hkey : req.idempotencyKey = some k)
    (hfresh : checkDuplicate st.idemCache k now = none)
    (hrun : postEvents now req st = ((200, b), st1))
    (hacc : b.isAccepted = true) :
    ∃ rid, st1.idemCache = st.idemCache ++
      [{ idempotencyKey := k, receiptId := rid, responsePayload := b,
         expiresAt := now + 86400000 }] := by
  obtain ⟨hu, hna | ⟨k2, hk2, hdup⟩⟩ | ⟨h200, hacc2, k2, rid, hk2, happ⟩ :=
    postEvents_cache_cases now req st _ hrun
  · rw [hacc] at hna
    exact Bool.noConfusion hna
  · rw [hkey] at hk2
    obtain rfl := Option.some.inj hk2
    rw [hfresh] at hdup
    exact Option.noConfusion hdup
  · rw [hkey] at hk2
    obtain rfl := Option.some.inj hk2
    exact ⟨rid, happ⟩

/-- C10: only accepted responses write an idempotency cache entry; any
run whose body is not accepted (400, 401, 404, 500 and the duplicate
path) leaves the cache unchanged, any cache change means the response
was 200 accepted, and after a non-accepted run a later request with the
same key sees exactly the duplicate-check outcome it would have seen
before, so it is processed fresh rather than replayed. -/
theorem c10_only_accepted_caches (now : Int) (req : Request) (st : St) :
    ((postEvents now req st).1.2.isAccepted = false →
      (postEvents now req st).2.idemCache = st.idemCache) ∧
    ((postEvents now req st).2.idemCache ≠ st.idemCache →
      (postEvents now req st).1.1 = 200 ∧
        (postEvents now req st).1.2.isAccepted = true) ∧
    (∀ k now2, req.idempotencyKey = some k →
      (postEvents now req st).1.2.isAccepted = false →
      checkDuplicate (postEvents now req st).2.idemCache k now2 =
        checkDuplicate st.idemCache k now2) := by
  obtain ⟨hu, _⟩ | ⟨h200, hacc, k2, rid, hk2, happ⟩ :=
    postEvents_cache_cases now req st _ rfl
  · exact ⟨fun _ => hu, fun hne => absurd hu hne, fun k now2 _ _ => by rw [hu]⟩
  · refine ⟨fun hf => ?_, fun _ => ⟨h200, hacc⟩, fun k now2 _ hf => ?_⟩
    · rw [hf] at hacc
      exact Bool.noConfusion hacc
    · rw [hf] at hacc
      exact Bool.noConfusion hacc

/-- C10 (witness): a request rejected 400 for a missing idempotency key
leaves the cache of the concrete initial store unchanged. -/
theorem c10_witness :
    (postEvents 1000 badReqW st0W).2.idemCache = st0W.idemCache :=
  (c10_only_accepted_caches 1000 badReqW st0W).1 (by decide)

/-- C1: replaying a request whose idempotency key was fresh at the
first, accepted submission — within the 24-hour expiry and under valid
authentication — returns status 200 with the exact previously returned
body and leaves the entire store unchanged, so the two submissions have
byte-identical bodies and exactly the one receipt persisted by the
first run. -/
theorem c1_idempotent_replay (now1 now2 : Int) (req : Request) (st0 st1 : St)
    (k : String) (b1 : RespBody) (p : Publisher)
    (hkey : req.idempotencyKey = some k)
    (hfresh : checkDuplicate st0.idemCache k now1 = none)
    (hrun : postEvents now1 req st0 = ((200, b1), st1))
    (hacc : b1.isAccepted = true)
    (h12 : now1 ≤ now2) (hexp : now2 < now1 + 86400000)
    (hauth2 : authenticatePublisher st1.publishers req now2 = .ok p) :
    postEvents now2 req st1 = ((200, b1), st1) := by
  obtain ⟨rid, hcache⟩ :=
    postEvents_accepted_caches now1 req st0 k b1 st1 hkey hfresh hrun hacc
  have hdup2 : checkDuplicate st1.idemCache k now2 = some b1 := by
    rw [hcache]
    exact checkDuplicate_append_hit _ _ _ _
      (checkDuplicate_mono _ _ _ _ hfresh h12) rfl hexp
  unfold postEvents
  rw [hauth2]
  dsimp only
  rw [hkey]
  dsimp only
  rw [hdup2]

/-- C1 (witness): the concrete impression request replayed at time 2000
returns the exact body of its first run and leaves the store unchanged. -/
theorem c1_witness :
    postEvents 2000 impReqW st1W =
      ((200, RespBody.accepted "rct_0" 1000 none none), st1W) :=
  c1_idempotent_replay 1000 2000 impReqW st0W st1W "k1"
    (RespBody.accepted "rct_0" 1000 none none) pubW rfl (by decide)
    (by decide) rfl (by decide) (by decide) (by decide)

/-- C9 (counterexample): the claim says an idempotency replay answers
200 with a body of the form status duplicate with receipt_id and
message; the concrete replay answers 200 with the cached accepted body,
which is not duplicate-shaped. -/
theorem c9_counterexample :
    (postEvents 2000 impReqW st1W).1.1 = 200 ∧
    (postEvents 2000 impReqW st1W).1.2 =
      RespBody.accepted "rct_0" 1000 none none ∧
    (postEvents 2000 impReqW st1W).1.2.isDuplicate = false := by decide

/-- C9 (amended): a replay of an unexpired, previously accepted key
answers HTTP 200 whose body is the exact previously cached response —
an accepted body with receipt_id and ingested_at — not a body of the
form status duplicate; the duplicate body is produced by the separate
duplicate event_id path. -/
theorem c9_replay_response (now1 now2 : Int) (req : Request) (st0 st1 : St)
    (k : String) (b1 : RespBody) (p : Publisher)
    (hkey : req.idempotencyKey = some k)
    (hfresh : checkDuplicate st0.idemCache k now1 = none)
    (hrun : postEvents now1 req st0 = ((200, b1), st1))
    (hacc : b1.isAccepted = true)
    (h12 : now1 ≤ now2) (hexp : now2 < now1 + 86400000)
    (hauth2 : authenticatePublisher st1.publishers req now2 = .ok p) :
    (postEvents now2 req st1).1.1 = 200 ∧
    (postEvents now2 req st1).1.2 = b1 ∧
    (postEvents now2 req st1).1.2.isAccepted = true ∧
    (postEvents now2 req st1).1.2.isDuplicate = false := by
  obtain ⟨rid, hcache⟩ :=
    postEvents_accepted_caches now1 req st0 k b1 st1 hkey hfresh hrun hacc
  have hdup2 : checkDuplicate st1.idemCache k now2 = some b1 := by
    rw [hcache]
    exact checkDuplicate_append_hit _ _ _ _
      (checkDuplicate_mono _ _ _ _ hfresh h12) rfl hexp
  have hrun2 : postEvents now2 req st1 = ((200, b1), st1) := by
    unfold postEvents
    rw [hauth2]
    dsimp only
    rw [hkey]
    dsimp only
    rw [hdup2]
  rw [hrun2]
  refine ⟨rfl, rfl, hacc, ?_⟩
  cases b1 <;> first | rfl | exact Bool.noConfusion hacc

/-- C9 (witness): the concrete replay body is not duplicate-shaped. -/
theorem c9_witness :
    (postEvents 2000 impReqW st1W).1.2.isDuplicate = false :=
  (c9_replay_response 1000 2000 impReqW st0W st1W "k1"
    (RespBody.accepted "rct_0" 1000 none none) pubW rfl (by decide)
    (by decide) rfl (by decide) (by decide) (by decide)).2.2.2

/-- A key absent from the cache altogether is in particular not an
unexpired hit. -/
theorem checkDuplicate_of_no_key (cache : List IdemEntry) (k : String) (now : Int)
    (h : cache.any (fun e => e.idempotencyKey == k) = false) :
    checkDuplicate cache k now = none := by
  unfold checkDuplicate
  rw [List.any_eq_false] at h
  cases hf : cache.find? (fun e => e.idempotencyKey == k && decide (now < e.expiresAt)) with
  | none => rfl
  | some e =>
    exfalso
    have hmem := List.mem_of_find?_eq_some hf
    have hpred := List.find?_some hf
    rw [Bool.and_eq_true] at hpred
    exact h e hmem hpred.1

/-- With valid authentication, a present key that is not an unexpired
cache hit, and event_type qr_conversion, the endpoint defers to the
conversion handler. -/
theorem postEvents_conversion_dispatch (now : Int) (req : Request) (st : St)
    (k : String) (p : Publisher)
    (hauth : authenticatePublisher st.publishers req now = .ok p)
    (hkey : req.idempotencyKey = some k)
    (hnocache : checkDuplicate st.idemCache k now = none)
    (htype : req.eventType = some "qr_conversion") :
    postEvents now req st = handleQRConversion now req k st := by
  unfold postEvents
  rw [hauth]
  dsimp only
  rw [hkey]
  dsimp only
  rw [hnocache]
  dsimp only
  rw [htype]
  rfl

/-- C6: a conversion whose opportunity token matches no stored
impression is answered HTTP 404 pause_not_found with the store — in
particular wallets, ledger lines and billing records — untouched. -/
theorem c6_pause_not_found (now : Int) (req : Request) (st : St) (k : String)
    (p : Publisher) (eid : String) (t : Int) (opp : String)
    (hauth : authenticatePublisher st.publishers req now = .ok p)
    (hkey : req.idempotencyKey = some k)
    (hnocache : checkDuplicate st.idemCache k now = none)
    (htype : req.eventType = some "qr_conversion")
    (heid : req.eventId = some eid) (ht : req.eventTimeUtc = some t)
    (hp : req.hasPublisher = true) (hs : req.hasSession = true)
    (hc : req.hasConversion = true)
    (hopp : req.opportunityId = some opp)
    (hfresh : findReceiptByEventId st.receipts eid = none)
    (hnomatch : findMatchingPause st.receipts opp = none) :
    postEvents now req st = ((404, RespBody.err "pause_not_found"), st) ∧
    (postEvents now req st).2.wallets = st.wallets ∧
    (postEvents now req st).2.walletTxs = st.walletTxs ∧
    (postEvents now req st).2.billingRecords = st.billingRecords ∧
    (postEvents now req st).2.receipts = st.receipts := by
  have hd := postEvents_conversion_dispatch now req st k p hauth hkey hnocache htype
  have hh : handleQRConversion now req k st = ((404, RespBody.err "pause_not_found"), st) := by
    unfold handleQRConversion
    rw [heid, ht]
    dsimp only
    rw [hp, hs, hc]
    rw [if_neg (by decide)]
    rw [hopp]
    dsimp only
    rw [hfresh]
    dsimp only
    rw [hnomatch]
  rw [hd, hh]
  exact ⟨rfl, rfl, rfl, rfl, rfl⟩

/-- C6 (witness): the concrete conversion with unknown token zzz is
answered 404 pause_not_found and the store after the impression run is
returned unchanged. -/
theorem c6_witness :
    postEvents 5000 convNoMatchW st1W = ((404, RespBody.err "pause_not_found"), st1W) :=
  (c6_pause_not_found 5000 convNoMatchW st1W "k2" pubW "e2" 5000 "zzz"
    (by decide) rfl (by decide) rfl rfl rfl rfl rfl rfl rfl (by decide) (by decide)).1

/-- When findMatchingPause finds nothing, no stored pause impression
bears the token. -/
theorem findMatchingPause_none (rs : List Receipt) (opp : String)
    (h : findMatchingPause rs opp = none) :
    ∀ q ∈ rs, ¬(q.eventType = "pause_impression" ∧ q.ipauseOpportunityId = opp) := by
  induction rs with
  | nil => intro q hq; exact absurd hq (List.not_mem_nil q)
  | cons r rest ih =>
    unfold findMatchingPause at h
    dsimp only at h
    intro q hq hqprop
    by_cases hm : (r.ipauseOpportunityId == opp && r.eventType == "pause_impression") = true
    · rw [if_pos hm] at h
      cases hb : findMatchingPause rest opp with
      | none => rw [hb] at h; exact Option.noConfusion h
      | some b =>
        rw [hb] at h
        dsimp only at h
        split at h <;> exact Option.noConfusion h
    · rw [if_neg hm] at h
      rcases List.mem_cons.mp hq with rfl | hq2
      · exact hm (by simp [hqprop.1, hqprop.2])
      · exact ih h q hq2 hqprop

/-- findMatchingPause returns a stored pause impression bearing the
token whose processedAt is maximal among all such impressions. -/
theorem findMatchingPause_spec (rs : List Receipt) (opp : String) (p : Receipt)
    (h : findMatchingPause rs opp = some p) :
    p ∈ rs ∧ p.eventType = "pause_impression" ∧ p.ipauseOpportunityId = opp ∧
    ∀ q ∈ rs, q.eventType = "pause_impression" → q.ipauseOpportunityId = opp →
      q.processedAt ≤ p.processedAt := by
  induction rs generalizing p with
  | nil => exact Option.noConfusion h
  | cons r rest ih =>
    unfold findMatchingPause at h
    dsimp only at h
    by_cases hm : (r.ipauseOpportunityId == opp && r.eventType == "pause_impression") = true
    · rw [if_pos hm] at h
      have hm2 : r.ipauseOpportunityId = opp ∧ r.eventType = "pause_impression" := by
        simpa using hm
      cases hb : findMatchingPause rest opp with
      | none =>
        rw [hb] at h
        dsimp only at h
        obtain rfl := Option.some.inj h
        refine ⟨List.mem_cons_self _ _, hm2.2, hm2.1, ?_⟩
        intro q hq hqt hqo
        rcases List.mem_cons.mp hq with rfl | hq2
        · exact le_refl _
        · exact absurd ⟨hqt, hqo⟩ (findMatchingPause_none rest opp hb q hq2)
      | some b =>
        rw [hb] at h
        dsimp only at h
        obtain ⟨hbmem, hbt, hbo, hbmax⟩ := ih b hb
        by_cases hcmp : r.processedAt ≤ b.processedAt
        · rw [if_pos hcmp] at h
          obtain rfl := Option.some.inj h
          refine ⟨List.mem_cons_of_mem _ hbmem, hbt, hbo, ?_⟩
          intro q hq hqt hqo
          rcases List.mem_cons.mp hq with rfl | hq2
          · exact hcmp
          · exact hbmax q hq2 hqt hqo
        · rw [if_neg hcmp] at h
          obtain rfl := Option.some.inj h
          refine ⟨List.mem_cons_self _ _, hm2.2, hm2.1, ?_⟩
          intro q hq hqt hqo
          rcases List.mem_cons.mp hq with rfl | hq2
          · exact le_refl _
          · exact le_trans (hbmax q hq2 hqt hqo) (le_of_not_le hcmp)
    · rw [if_neg hm] at h
      obtain ⟨hmem, hpt, hpo, hmax⟩ := ih p h
      refine ⟨List.mem_cons_of_mem _ hmem, hpt, hpo, ?_⟩
      intro q hq hqt hqo
      rcases List.mem_cons.mp hq with rfl | hq2
      · exact absurd (by simp [hqt, hqo]) hm
      · exact hmax q hq2 hqt hqo

/-- processBilling rewrites receipts pointwise: at most the billing
status of the receipts bearing the pause impression id changes. -/
theorem processBilling_receipts_map (st : St) (pe : Receipt) (convId : Nat) :
    ∃ f : String → String, (processBilling st pe convId).receipts =
      st.receipts.map (fun r => if r.id == pe.id then
        { r with billingStatus := f r.billingStatus } else r) := by
  have hid : st.receipts.map (fun r => if r.id == pe.id then
      { r with billingStatus := r.billingStatus } else r) = st.receipts := by
    have hfun : (fun (r : Receipt) => if r.id == pe.id then
        { r with billingStatus := r.billingStatus } else r) = fun r => r := by
      funext r
      split <;> rfl
    rw [hfun, List.map_id']
  rcases processBilling_receipts_shape st pe convId with h | ⟨s, h⟩
  · exact ⟨fun x => x, by rw [h, hid]⟩
  · exact ⟨fun _ => s, by rw [h]⟩

/-- C5: a conversion whose token matches stored impressions is
correlated with the most recently stored one (maximal processedAt): the
created conversion receipt back-references that impression through
matchedPauseId, and the impression record in the final store
forward-references the conversion id (bidirectional linking). -/
theorem c5_correlation (now : Int) (req : Request) (k : String) (st : St)
    (eid : String) (t : Int) (opp : String) (p : Receipt)
    (heid : req.eventId = some eid) (ht : req.eventTimeUtc = some t)
    (hp : req.hasPublisher = true) (hs : req.hasSession = true)
    (hc : req.hasConversion = true)
    (hopp : req.opportunityId = some opp)
    (hfresh : findReceiptByEventId st.receipts eid = none)
    (hkfresh : st.receipts.any (fun x => x.idempotencyKey == k) = false)
    (hmatch : findMatchingPause st.receipts opp = some p)
    (hids : ∀ r ∈ st.receipts, r.id < st.nextId) :
    (p ∈ st.receipts ∧ p.eventType = "pause_impression" ∧
      p.ipauseOpportunityId = opp ∧
      ∀ q ∈ st.receipts, q.eventType = "pause_impression" →
        q.ipauseOpportunityId = opp → q.processedAt ≤ p.processedAt) ∧
    (∃ conv ∈ (handleQRConversion now req k st).2.receipts,
      conv.id = st.nextId ∧ conv.eventId = eid ∧
      conv.eventType = "qr_conversion" ∧ conv.matchedPauseId = some p.id) ∧
    (∃ p2 ∈ (handleQRConversion now req k st).2.receipts,
      p2.id = p.id ∧ p2.matchedConversionId = some st.nextId) := by
  obtain ⟨hpmem, hpt, hpo, hpmax⟩ := findMatchingPause_spec st.receipts opp p hmatch
  have hne : (st.nextId == p.id) = false :=
    beq_eq_false_iff_ne.mpr (Ne.symm (Nat.ne_of_lt (hids p hpmem)))
  refine ⟨⟨hpmem, hpt, hpo, hpmax⟩, ?_⟩
  unfold handleQRConversion
  rw [heid, ht]
  dsimp only
  rw [hp, hs, hc]
  rw [if_neg (by decide)]
  rw [hopp]
  dsimp only
  rw [hfresh]
  dsimp only
  rw [hmatch]
  dsimp only
  rw [insertReceipt_fresh st _ (findReceipt_none_any_false _ _ hfresh) hkfresh]
  dsimp only
  split <;>
    (dsimp only
     rw [updateA2AR_receipts]
     by_cases hsucc : (req.conversionResult == some "success") = true
     · rw [if_pos hsucc, (processBilling_receipts_map _ p st.nextId).choose_spec]
       dsimp only
       constructor
       · refine ⟨_, List.mem_map_of_mem _ (List.mem_map_of_mem _
           (List.mem_append.mpr (Or.inr (List.mem_singleton_self _)))),
           ?_, ?_, ?_, ?_⟩ <;> simp [hne]
       · refine ⟨_, List.mem_map_of_mem _ (List.mem_map_of_mem _
           (List.mem_append.mpr (Or.inl hpmem))), ?_, ?_⟩ <;> simp [hne]
     · rw [if_neg hsucc]
       dsimp only
       constructor
       · refine ⟨_, List.mem_map_of_mem _
           (List.mem_append.mpr (Or.inr (List.mem_singleton_self _))),
           ?_, ?_, ?_, ?_⟩ <;> simp [hne]
       · refine ⟨_, List.mem_map_of_mem _
           (List.mem_append.mpr (Or.inl hpmem)), ?_, ?_⟩ <;> simp [hne])

/-- C5 (witness): in the concrete store after the impression run, the
stored impression is the canonical match for token opp1: it is a pause
impression bearing the token with maximal processedAt. -/
theorem c5_witness :
    peBW ∈ st1W.receipts ∧ peBW.eventType = "pause_impression" ∧
    peBW.ipauseOpportunityId = "opp1" ∧
    ∀ q ∈ st1W.receipts, q.eventType = "pause_impression" →
      q.ipauseOpportunityId = "opp1" → q.processedAt ≤ peBW.processedAt :=
  (c5_correlation 5000 convReqW "k2" st1W "e2" 5000 "opp1" peBW rfl rfl rfl rfl
    rfl rfl (by decide) (by decide) (by decide) (by decide)).1

/-- The insufficient-funds branch of processBilling, stated with the
store quantified after the side conditions so that rewriting can
resolve it from the goal. -/
theorem processBilling_insufficient_proj (pe : Receipt) (convId : Nat)
    (cid : String) (qr : QrCode) (w : Wallet)
    (hcid : pe.campaignId = some cid)
    (hbal : w.balance < effectiveConversionFee qr) :
    ∀ st : St, st.qrCodes.find? (fun q => q.id == cid) = some qr →
      st.wallets.find? (fun x => x.user == qr.advertiser) = some w →
      processBilling st pe convId =
        { st with receipts := st.receipts.map (fun r =>
            if r.id == pe.id then { r with billingStatus := "non_billable" } else r) } := by
  intro st hqr hw
  exact processBilling_insufficient st pe convId cid qr w hcid hqr hw hbal

/-- A create against a cache holding no entry for the key succeeds and
appends the entry. -/
theorem cacheResponse_fresh (cache : List IdemEntry) (k receiptId : String)
    (payload : RespBody) (now : Int)
    (h : cache.any (fun e => e.idempotencyKey == k) = false) :
    cacheResponse cache k receiptId payload now =
      some (cache ++
        [{ idempotencyKey := k, receiptId := receiptId,
           responsePayload := payload, expiresAt := now + 86400000 }]) := by
  unfold cacheResponse
  rw [h]
  rfl

/-- C3 (amended): a matched successful conversion whose advertiser
wallet balance is strictly below the fee leaves wallets, ledger lines
and billing records untouched, sets the MATCHED IMPRESSION receipt
billing status to non_billable (the conversion receipt keeps the
billable status given at creation), and the endpoint still answers 200
accepted. -/
theorem c3_insufficient_funds (now : Int) (req : Request) (st : St) (k : String)
    (p0 : Publisher) (eid : String) (t : Int) (opp : String) (p : Receipt)
    (cid : String) (qr : QrCode) (w : Wallet)
    (hauth : authenticatePublisher st.publishers req now = .ok p0)
    (hkey : req.idempotencyKey = some k)
    (hkcache : st.idemCache.any (fun e => e.idempotencyKey == k) = false)
    (htype : req.eventType = some "qr_conversion")
    (heid : req.eventId = some eid) (ht : req.eventTimeUtc = some t)
    (hp : req.hasPublisher = true) (hs : req.hasSession = true)
    (hc : req.hasConversion = true)
    (hopp : req.opportunityId = some opp)
    (hfresh : findReceiptByEventId st.receipts eid = none)
    (hkfresh : st.receipts.any (fun x => x.idempotencyKey == k) = false)
    (hmatch : findMatchingPause st.receipts opp = some p)
    (hsucc : req.conversionResult = some "success")
    (hcid : p.campaignId = some cid)
    (hqr : st.qrCodes.find? (fun q => q.id == cid) = some qr)
    (hw : st.wallets.find? (fun x => x.user == qr.advertiser) = some w)
    (hbal : w.balance < effectiveConversionFee qr)
    (hids : ∀ r ∈ st.receipts, r.id < st.nextId) :
    (postEvents now req st).1.1 = 200 ∧
    (postEvents now req st).1.2.isAccepted = true ∧
    (postEvents now req st).2.wallets = st.wallets ∧
    (postEvents now req st).2.walletTxs = st.walletTxs ∧
    (postEvents now req st).2.billingRecords = st.billingRecords ∧
    (∃ p2 ∈ (postEvents now req st).2.receipts,
      p2.id = p.id ∧ p2.billingStatus = "non_billable") ∧
    (∃ conv ∈ (postEvents now req st).2.receipts,
      conv.id = st.nextId ∧ conv.eventType = "qr_conversion" ∧
      conv.billingStatus = "billable") := by
  obtain ⟨hpmem, hpt, hpo, _⟩ := findMatchingPause_spec st.receipts opp p hmatch
  have hne : (st.nextId == p.id) = false :=
    beq_eq_false_iff_ne.mpr (Ne.symm (Nat.ne_of_lt (hids p hpmem)))
  have hnocache := checkDuplicate_of_no_key st.idemCache k now hkcache
  rw [postEvents_conversion_dispatch now req st k p0 hauth hkey hnocache htype]
  unfold handleQRConversion
  rw [heid, ht]
  dsimp only
  rw [hp, hs, hc]
  rw [if_neg (by decide)]
  rw [hopp]
  dsimp only
  rw [hfresh]
  dsimp only
  rw [hmatch]
  dsimp only
  rw [hsucc]
  simp only [beq_self_eq_true, reduceIte]
  rw [insertReceipt_fresh st _ (findReceipt_none_any_false _ _ hfresh) hkfresh]
  dsimp only
  rw [processBilling_insufficient_proj p st.nextId cid qr w hcid hbal]
  rotate_left
  · exact hqr
  · exact hw
  dsimp only
  rw [updateA2AR_idemCache]
  dsimp only
  rw [cacheResponse_fresh _ _ _ _ _ hkcache]
  dsimp only
  refine ⟨rfl, rfl, ?_, ?_, ?_, ?_, ?_⟩
  · rw [updateA2AR_wallets]
  · rw [updateA2AR_walletTxs]
  · rw [updateA2AR_billingRecords]
  · rw [updateA2AR_receipts]
    dsimp only
    refine ⟨_, List.mem_map_of_mem _ (List.mem_map_of_mem _
      (List.mem_append.mpr (Or.inl hpmem))), ?_, ?_⟩ <;> simp [hne]
  · rw [updateA2AR_receipts]
    dsimp only
    refine ⟨_, List.mem_map_of_mem _ (List.mem_map_of_mem _
      (List.mem_append.mpr (Or.inr (List.mem_singleton_self _)))), ?_, ?_, ?_⟩ <;>
      simp [hne]

/-- C3 (counterexample): in the concrete low-funds run the billing
machinery marks the IMPRESSION receipt non_billable while the
conversion receipt keeps status billable, refuting the claim that the
conversion receipt is set to non_billable; the wallet is unchanged. -/
theorem c3_counterexample :
    ((stLow2W.receipts.find? (fun r => r.eventType == "qr_conversion")).map
      (fun r => r.billingStatus)) = some "billable" ∧
    ((stLow2W.receipts.find? (fun r => r.eventType == "pause_impression")).map
      (fun r => r.billingStatus)) = some "non_billable" ∧
    stLow2W.wallets = st0LowW.wallets := by decide

/-- C3 (witness): the concrete low-funds conversion leaves the wallet
collection unchanged. -/
theorem c3_witness :
    (postEvents 5000 convReqW st1LowW).2.wallets = st1LowW.wallets :=
  (c3_insufficient_funds 5000 convReqW st1LowW "k2" pubW "e2" 5000 "opp1" peBW
    "camp1" qrW wLowW (by decide) rfl (by decide) rfl rfl rfl rfl rfl rfl rfl
    (by decide) (by decide) (by decide) rfl rfl (by decide) (by decide)
    (by decide) (by decide)).2.2.1

/-- C2 (amended): a matched successful conversion against a wallet
funded at least to the fee debits exactly the fee, appends one ledger
line with balanceBefore the prior balance, balanceAfter = balanceBefore
+ amount and amount = -fee, creates one billing record whose
publisherShare + platformCut equals the fee, and sets the billing
status of the MATCHED IMPRESSION receipt to billed; every other
receipt, the conversion receipt included, is carried over unchanged. -/
theorem c2_billing_success (st : St) (pe : Receipt) (convId : Nat) (cid : String)
    (qr : QrCode) (w : Wallet)
    (hcid : pe.campaignId = some cid)
    (hqr : st.qrCodes.find? (fun q => q.id == cid) = some qr)
    (hw : st.wallets.find? (fun x => x.user == qr.advertiser) = some w)
    (hbal : effectiveConversionFee qr ≤ w.balance) :
    processBilling st pe convId = { st with
      wallets := st.wallets.map (fun x => if x.user == qr.advertiser
        then { x with balance := w.balance - effectiveConversionFee qr } else x),
      walletTxs := st.walletTxs ++
        [{ wallet := w.id, type := "conversion_fee",
           amount := -(effectiveConversionFee qr), balanceBefore := w.balance,
           balanceAfter := w.balance - effectiveConversionFee qr,
           referenceId := convId }],
      billingRecords := st.billingRecords ++
        [{ user := qr.advertiser, scan := convId,
           qrCodeId := qr.id, conversionFee := effectiveConversionFee qr,
           publisherShare := effectivePublisherShare qr,
           ipauseCut := effectiveConversionFee qr - effectivePublisherShare qr }],
      receipts := st.receipts.map (fun r => if r.id == pe.id
        then { r with billingStatus := "billed" } else r) } ∧
    w.balance - effectiveConversionFee qr
      = w.balance + (-(effectiveConversionFee qr)) ∧
    effectivePublisherShare qr + (effectiveConversionFee qr - effectivePublisherShare qr)
      = effectiveConversionFee qr ∧
    (∀ r ∈ st.receipts, r.id ≠ pe.id →
      r ∈ (processBilling st pe convId).receipts) := by
  have h := processBilling_success_eq st pe convId cid qr w hcid hqr hw hbal
  refine ⟨h, by ring, by ring, ?_⟩
  intro r hr hrne
  rw [h]
  dsimp only
  have hne : (r.id == pe.id) = false := beq_eq_false_iff_ne.mpr hrne
  have hmem := List.mem_map_of_mem (fun r => if r.id == pe.id
    then { r with billingStatus := "billed" } else r) hr
  dsimp only at hmem
  simpa [hne] using hmem

/-- C2 (counterexample): in the concrete funded run the wallet is
debited 5 and the impression receipt is billed, yet the conversion
receipt keeps status billable — refuting the claim that the billing
status of BOTH the conversion and the impression receipt is set to
billed. -/
theorem c2_counterexample :
    ((st2W.receipts.find? (fun r => r.eventType == "qr_conversion")).map
      (fun r => r.billingStatus)) = some "billable" ∧
    ((st2W.receipts.find? (fun r => r.eventType == "pause_impression")).map
      (fun r => r.billingStatus)) = some "billed" ∧
    st2W.wallets = [{ id := 100, user := "adv1", balance := 95 }] := by decide

/-- C2 (witness): in the concrete campaign the publisher share plus the
platform cut equals the conversion fee. -/
theorem c2_witness :
    effectivePublisherShare qrW +
      (effectiveConversionFee qrW - effectivePublisherShare qrW)
      = effectiveConversionFee qrW :=
  (c2_billing_success st0W peBW 7 "camp1" qrW wBW rfl (by decide) (by decide)
    (by decide)).2.2.1

end IPause
